import Mathlib

/-!
Verification of the ai_trading Signal Scoring Engine.

This file is a shallow embedding of the repository's two core modules:

* `src/decision_engine/engine.py` — the `DecisionEngine` class combining a
  sentiment-annotated news item and an optional metrics record into a
  weighted, thresholded trading decision with a reasoning string;
* `src/metrics/calculator.py` — the `MetricsCalculator` class deriving
  technical indicators and valuation estimates.

Python floats are modelled by exact rationals `ℚ`; `None` by `Option.none`.
The repository's `config.py` and `models.py` are not under `src/`, so the
configuration constants are carried as explicit parameters (a `Config`
structure of the fields the engine reads) and the model classes are
structures with exactly the fields the source accesses.
-/

/-- Sentiment label of a news item (`models.SentimentLabel`). -/
inductive SentimentLabel where
  | POSITIVE
  | NEGATIVE
  | NEUTRAL
deriving DecidableEq

/-- Five-valued trading decision (`models.DecisionTag`). -/
inductive DecisionTag where
  | STRONG_BUY
  | BUY
  | HOLD
  | SELL
  | STRONG_SELL
deriving DecidableEq

/-- The fields of `models.NewsItem` that the decision engine reads. -/
structure NewsItem where
  sentiment_score : Option ℚ
  sentiment_confidence : Option ℚ
  sentiment_label : SentimentLabel
deriving DecidableEq

/-- The fields of `models.StockMetrics` that the decision engine reads
(each independently optional, exactly as in the source). -/
structure StockMetrics where
  peg_ratio : Option ℚ
  roe : Option ℚ
  eps : Option ℚ
  free_cash_flow : Option ℚ
  dcf_value : Option ℚ
  intrinsic_value : Option ℚ
  rsi : Option ℚ
  macd : Option ℚ
  macd_signal : Option ℚ
  macd_histogram : Option ℚ
  fibonacci_levels : Option (List (String × ℚ))
  bollinger_upper : Option ℚ
  bollinger_middle : Option ℚ
  bollinger_lower : Option ℚ
  max_drawdown : Option ℚ
  current_price : Option ℚ
deriving DecidableEq

/-- A `StockMetrics` with every field absent, for building concrete inputs. -/
def emptyMetrics : StockMetrics :=
  { peg_ratio := none, roe := none, eps := none, free_cash_flow := none,
    dcf_value := none, intrinsic_value := none, rsi := none, macd := none,
    macd_signal := none, macd_histogram := none, fibonacci_levels := none,
    bollinger_upper := none, bollinger_middle := none, bollinger_lower := none,
    max_drawdown := none, current_price := none }

/-- The configuration constants read by the engine and the calculator
(`config.Config`; the file is outside `src/`, so the constants are
parameters here, constrained only where a claim constrains them). -/
structure Config where
  SENTIMENT_WEIGHT : ℚ
  FUNDAMENTAL_WEIGHT : ℚ
  TECHNICAL_WEIGHT : ℚ
  SENTIMENT_HIGH_CONFIDENCE_THRESHOLD : ℚ
  STRONG_BUY_THRESHOLD : ℚ
  BUY_THRESHOLD : ℚ
  SELL_THRESHOLD : ℚ
  STRONG_SELL_THRESHOLD : ℚ
  RSI_PERIOD : ℕ
  MACD_FAST : ℕ
  MACD_SLOW : ℕ
  MACD_SIGNAL : ℕ
  BOLLINGER_PERIOD : ℕ
  BOLLINGER_STD : ℚ
deriving DecidableEq

/-- `models.TradingSignal`: the record built by `DecisionEngine.generate_signal`. -/
structure TradingSignal where
  news_item : NewsItem
  metrics : Option StockMetrics
  decision : DecisionTag
  decision_score : ℚ
  reasoning : String
deriving DecidableEq

/-! ## Decision engine: component scores (`engine.py`) -/

/-- `DecisionEngine._calculate_sentiment_score`: polarity, boosted by 20% when
confidence is truthy and above the high-confidence threshold, clamped to
`[-1, 1]`; `0.0` when no polarity is present. -/
def calculate_sentiment_score (cfg : Config) (news_item : NewsItem) : ℚ :=
  match news_item.sentiment_score with
  | none => 0
  | some s =>
      let score :=
        match news_item.sentiment_confidence with
        | some c =>
            if c ≠ 0 ∧ cfg.SENTIMENT_HIGH_CONFIDENCE_THRESHOLD < c then s * 1.2 else s
        | none => s
      max (-1) (min 1 score)

/-- The PEG-ratio check of `_calculate_fundamental_score`: (delta added to the
running sum, increment added to the running count). -/
def peg_check (peg : Option ℚ) : ℚ × ℕ :=
  match peg with
  | none => (0, 0)
  | some p =>
      (if p < 1 then 0.5 else if p < 2 then 0.2 else if 3 < p then -0.3 else 0, 1)

/-- The ROE check of `_calculate_fundamental_score`. -/
def roe_check (roe : Option ℚ) : ℚ × ℕ :=
  match roe with
  | none => (0, 0)
  | some r =>
      (if 20 < r then 0.4 else if 15 < r then 0.2 else if r < 10 then -0.2 else 0, 1)

/-- The EPS check of `_calculate_fundamental_score`. -/
def eps_check (eps : Option ℚ) : ℚ × ℕ :=
  match eps with
  | none => (0, 0)
  | some e => (if 5 < e then 0.3 else if 0 < e then 0.1 else -0.3, 1)

/-- The intrinsic-value-versus-price check of `_calculate_fundamental_score`:
counted only when both values are present and the current price is positive. -/
def value_check (intrinsic_value current_price : Option ℚ) : ℚ × ℕ :=
  match intrinsic_value, current_price with
  | some iv, some cp =>
      if 0 < cp then
        let value_ratio := iv / cp
        (if 1.2 < value_ratio then 0.5
         else if 1 < value_ratio then 0.3
         else if value_ratio < 0.8 then -0.5
         else if value_ratio < 1 then -0.3
         else 0, 1)
      else (0, 0)
  | _, _ => (0, 0)

/-- `DecisionEngine._calculate_fundamental_score`: sum the four checks, divide
by the count of counted checks, clamp to `[-1, 1]`; `0.0` when `metrics` is
absent. -/
def calculate_fundamental_score (metrics : Option StockMetrics) : ℚ :=
  match metrics with
  | none => 0
  | some m =>
      let c1 := peg_check m.peg_ratio
      let c2 := roe_check m.roe
      let c3 := eps_check m.eps
      let c4 := value_check m.intrinsic_value m.current_price
      let score := c1.1 + c2.1 + c3.1 + c4.1
      let count := c1.2 + c2.2 + c3.2 + c4.2
      let score := if 0 < count then score / (count : ℚ) else score
      max (-1) (min 1 score)

/-- The RSI check of `_calculate_technical_score`. -/
def rsi_check (rsi : Option ℚ) : ℚ × ℕ :=
  match rsi with
  | none => (0, 0)
  | some r =>
      (if r < 30 then 0.5 else if r < 40 then 0.2
       else if 70 < r then -0.5 else if 60 < r then -0.2 else 0, 1)

/-- The MACD-histogram check of `_calculate_technical_score`: a histogram of
exactly `0` is counted with delta `-0.3` (the `else` branch). -/
def macd_check (macd_histogram : Option ℚ) : ℚ × ℕ :=
  match macd_histogram with
  | none => (0, 0)
  | some h => (if 0 < h then 0.3 else -0.3, 1)

/-- The Bollinger-band check of `_calculate_technical_score`: counted only when
all four fields are present and the band range is positive. -/
def boll_check (current_price bollinger_upper bollinger_lower bollinger_middle :
    Option ℚ) : ℚ × ℕ :=
  match current_price, bollinger_upper, bollinger_lower, bollinger_middle with
  | some c, some u, some l, some _ =>
      let band_range := u - l
      if 0 < band_range then
        let position := (c - l) / band_range
        (if position < 0.2 then 0.4
         else if position < 0.4 then 0.2
         else if 0.8 < position then -0.4
         else if 0.6 < position then -0.2
         else 0, 1)
      else (0, 0)
  | _, _, _, _ => (0, 0)

/-- The max-drawdown check of `_calculate_technical_score`: counted whenever a
drawdown value is present, even when its delta is `0`. -/
def drawdown_check (max_drawdown : Option ℚ) : ℚ × ℕ :=
  match max_drawdown with
  | none => (0, 0)
  | some d => (if d < -30 then -0.3 else if d < -20 then -0.1 else 0, 1)

/-- `DecisionEngine._calculate_technical_score`: sum the four checks, divide by
the count of counted checks, clamp to `[-1, 1]`; `0.0` when `metrics` is
absent. -/
def calculate_technical_score (metrics : Option StockMetrics) : ℚ :=
  match metrics with
  | none => 0
  | some m =>
      let c1 := rsi_check m.rsi
      let c2 := macd_check m.macd_histogram
      let c3 := boll_check m.current_price m.bollinger_upper m.bollinger_lower
        m.bollinger_middle
      let c4 := drawdown_check m.max_drawdown
      let score := c1.1 + c2.1 + c3.1 + c4.1
      let count := c1.2 + c2.2 + c3.2 + c4.2
      let score := if 0 < count then score / (count : ℚ) else score
      max (-1) (min 1 score)

/-- `DecisionEngine._score_to_decision`: the ordered guard chain on the
combined score. -/
def score_to_decision (cfg : Config) (score : ℚ) : DecisionTag :=
  if cfg.STRONG_BUY_THRESHOLD ≤ score then DecisionTag.STRONG_BUY
  else if cfg.BUY_THRESHOLD ≤ score then DecisionTag.BUY
  else if score ≤ cfg.STRONG_SELL_THRESHOLD then DecisionTag.STRONG_SELL
  else if score ≤ cfg.SELL_THRESHOLD then DecisionTag.SELL
  else DecisionTag.HOLD

/-! ## Decision engine: reasoning string (`engine.py`, `_generate_reasoning`)

Python's f-string fixed-point formatting (`:.2f`, `:.1f`, `:.2%`, `:.1%`) is
modelled by exact round-half-even formatting of the rational value; the sign
is taken from the unrounded value, as Python does (`-0.001` prints `-0.00`). -/

/-- Round to the nearest integer, ties to the even integer (the rounding used
by Python's fixed-point formatting). -/
def round_half_even (q : ℚ) : ℤ :=
  let f := ⌊q⌋
  let frac := q - (f : ℚ)
  if frac < 1 / 2 then f
  else if 1 / 2 < frac then f + 1
  else if f % 2 = 0 then f else f + 1

/-- Left-pad a digit string with zeros to width `n`. -/
def pad_zeros (n : ℕ) (s : String) : String :=
  if s.length < n then String.mk (List.replicate (n - s.length) '0') ++ s else s

/-- Fixed-point decimal rendering with `nd` digits after the point (Python's
`:.{nd}f`). -/
def fmtFixed (nd : ℕ) (q : ℚ) : String :=
  let scaled := round_half_even (q * ((10 : ℚ) ^ nd))
  let sign := if q < 0 then "-" else ""
  let m := scaled.natAbs
  if nd = 0 then sign ++ toString (m : ℕ)
  else sign ++ toString (m / 10 ^ nd) ++ "." ++ pad_zeros nd (toString (m % 10 ^ nd))

/-- Percent rendering with `nd` digits after the point (Python's `:.{nd}%`). -/
def fmtPercent (nd : ℕ) (q : ℚ) : String :=
  fmtFixed nd (q * 100) ++ "%"

/-- The sentiment clauses of `_generate_reasoning` (fires on a non-neutral
label; a missing confidence prints as `0`). -/
def sentiment_reasons (news_item : NewsItem) : List String :=
  match news_item.sentiment_label with
  | SentimentLabel.POSITIVE =>
      ["Positive news sentiment (" ++
        fmtPercent 2 (news_item.sentiment_confidence.getD 0) ++ " confidence)"]
  | SentimentLabel.NEGATIVE =>
      ["Negative news sentiment (" ++
        fmtPercent 2 (news_item.sentiment_confidence.getD 0) ++ " confidence)"]
  | SentimentLabel.NEUTRAL => []

/-- The PEG clause of `_generate_reasoning` (`if metrics.peg_ratio and
metrics.peg_ratio < 1`: Python truthiness, so a PEG of exactly `0` fires no
clause). -/
def peg_reasons (m : StockMetrics) : List String :=
  match m.peg_ratio with
  | some p => if p ≠ 0 ∧ p < 1 then ["Strong PEG ratio (" ++ fmtFixed 2 p ++ ")"] else []
  | none => []

/-- The ROE clause of `_generate_reasoning`. -/
def roe_reasons (m : StockMetrics) : List String :=
  match m.roe with
  | some r => if r ≠ 0 ∧ 15 < r then ["Good ROE (" ++ fmtFixed 1 r ++ "%)"] else []
  | none => []

/-- The valuation clause of `_generate_reasoning` (guarded by truthiness of
both the intrinsic value and the current price). -/
def value_reasons (m : StockMetrics) : List String :=
  match m.intrinsic_value, m.current_price with
  | some iv, some cp =>
      if iv ≠ 0 ∧ cp ≠ 0 then
        let ratio := iv / cp
        if 1.2 < ratio then ["Undervalued (" ++ fmtPercent 1 ratio ++ " of intrinsic value)"]
        else if ratio < 0.8 then ["Overvalued (" ++ fmtPercent 1 ratio ++ " of intrinsic value)"]
        else []
      else []
  | _, _ => []

/-- The RSI clause of `_generate_reasoning` (truthiness guard: an RSI of
exactly `0` fires no clause). -/
def rsi_reasons (m : StockMetrics) : List String :=
  match m.rsi with
  | some r =>
      if r ≠ 0 then
        if r < 30 then ["Oversold RSI (" ++ fmtFixed 1 r ++ ")"]
        else if 70 < r then ["Overbought RSI (" ++ fmtFixed 1 r ++ ")"]
        else []
      else []
  | none => []

/-- The MACD clause of `_generate_reasoning` (`if metrics.macd_histogram:` is a
truthiness guard, so a histogram of exactly `0` fires no clause even though
the scorer counts it). -/
def macd_reasons (m : StockMetrics) : List String :=
  match m.macd_histogram with
  | some h => if h ≠ 0 then [if 0 < h then "Bullish MACD" else "Bearish MACD"] else []
  | none => []

/-- The full clause list built by `_generate_reasoning`, in source order. -/
def reason_list (news_item : NewsItem) (metrics : Option StockMetrics) : List String :=
  sentiment_reasons news_item ++
    match metrics with
    | some m =>
        (peg_reasons m ++ roe_reasons m ++ value_reasons m) ++
          (rsi_reasons m ++ macd_reasons m)
    | none => []

/-- `DecisionEngine._generate_reasoning`: join the fired clauses (or the fixed
fallback clause) and append the combined score formatted to two decimals.
The three component scores are accepted and ignored, as in the source. -/
def generate_reasoning (news_item : NewsItem) (metrics : Option StockMetrics)
    (sentiment_score fundamental_score technical_score combined_score : ℚ) : String :=
  let _ := sentiment_score
  let _ := fundamental_score
  let _ := technical_score
  let reasons := reason_list news_item metrics
  (if reasons.isEmpty then "Based on available data" else String.intercalate "; " reasons) ++
    " | Combined score: " ++ fmtFixed 2 combined_score

/-- `DecisionEngine.generate_signal`: component scores, weighted combination,
threshold decision, reasoning string, assembled into a `TradingSignal`. -/
def generate_signal (cfg : Config) (news_item : NewsItem)
    (metrics : Option StockMetrics) : TradingSignal :=
  let sentiment_score := calculate_sentiment_score cfg news_item
  let fundamental_score := calculate_fundamental_score metrics
  let technical_score := calculate_technical_score metrics
  let combined_score :=
    sentiment_score * cfg.SENTIMENT_WEIGHT +
    fundamental_score * cfg.FUNDAMENTAL_WEIGHT +
    technical_score * cfg.TECHNICAL_WEIGHT
  let decision := score_to_decision cfg combined_score
  let reasoning := generate_reasoning news_item metrics sentiment_score
    fundamental_score technical_score combined_score
  { news_item := news_item, metrics := metrics, decision := decision,
    decision_score := combined_score, reasoning := reasoning }

/-! ## Metrics calculator (`calculator.py`)

The pandas Series arithmetic in `_calculate_technicals` produces IEEE special
values (an incomplete rolling window yields `NaN`, `x / 0` yields `±inf` or
`NaN`) which the source then stores as ordinary floats. `PF` is a pandas
float: an exact rational or one of the three special values, with the IEEE
propagation rules for the operations the source performs. -/

/-- A pandas float value: an exact rational, `NaN`, `+inf` or `-inf`. -/
inductive PF where
  | nan
  | inf
  | ninf
  | num (q : ℚ)
deriving DecidableEq

namespace PF

/-- IEEE addition, restricted to the shapes the source produces. -/
def add : PF → PF → PF
  | nan, _ => nan
  | _, nan => nan
  | inf, ninf => nan
  | ninf, inf => nan
  | inf, _ => inf
  | _, inf => inf
  | ninf, _ => ninf
  | _, ninf => ninf
  | num a, num b => num (a + b)

/-- IEEE subtraction. -/
def sub : PF → PF → PF
  | nan, _ => nan
  | _, nan => nan
  | inf, inf => nan
  | ninf, ninf => nan
  | inf, _ => inf
  | ninf, _ => ninf
  | _, inf => ninf
  | _, ninf => inf
  | num a, num b => num (a - b)

/-- IEEE division as numpy performs it on Series (division by zero warns and
yields `±inf`, `0/0` yields `NaN`). -/
def div : PF → PF → PF
  | nan, _ => nan
  | _, nan => nan
  | inf, inf => nan
  | inf, ninf => nan
  | ninf, inf => nan
  | ninf, ninf => nan
  | inf, num b => if b < 0 then ninf else inf
  | ninf, num b => if b < 0 then inf else ninf
  | num _, inf => num 0
  | num _, ninf => num 0
  | num a, num b =>
      if b = 0 then (if a = 0 then nan else if 0 < a then inf else ninf)
      else num (a / b)

/-- Multiplication by a rational scalar. -/
def smul (c : ℚ) : PF → PF
  | nan => nan
  | inf => if c = 0 then nan else if 0 < c then inf else ninf
  | ninf => if c = 0 then nan else if 0 < c then ninf else inf
  | num a => num (c * a)

/-- The order on non-`NaN` pandas floats used by `Series.min`. -/
def le : PF → PF → Bool
  | nan, _ => false
  | _, nan => false
  | ninf, _ => true
  | _, ninf => false
  | _, inf => true
  | inf, _ => false
  | num a, num b => a ≤ b

end PF

/-- Division of two exact rationals as numpy Series division (`x / 0` yields a
special value instead of raising). -/
def pf_div_q (a b : ℚ) : PF :=
  if b = 0 then (if a = 0 then PF.nan else if 0 < a then PF.inf else PF.ninf)
  else PF.num (a / b)

/-- `Series.min` with the default `skipna=True`: `NaN` entries are skipped and
the minimum of nothing is `NaN`. -/
def pf_min (xs : List PF) : PF :=
  match xs.filter (fun x => x ≠ PF.nan) with
  | [] => PF.nan
  | y :: ys => ys.foldl (fun acc x => if PF.le x acc then x else acc) y

/-- One price bar of the historical data frame (the columns the source
reads). -/
structure Bar where
  high : ℚ
  low : ℚ
  close : ℚ
deriving DecidableEq

/-- `Series.diff` followed by `.where(delta > 0, 0)`: the leading `NaN` delta
compares false and becomes `0`, the rest keep positive deltas. -/
def gains : List ℚ → List ℚ
  | [] => []
  | x :: xs => 0 :: (List.zipWith (fun a b => a - b) xs (x :: xs)).map
      (fun d => if 0 < d then d else 0)

/-- `(-delta.where(delta < 0, 0))`: negated negative deltas, `0` elsewhere. -/
def losses : List ℚ → List ℚ
  | [] => []
  | x :: xs => 0 :: (List.zipWith (fun a b => a - b) xs (x :: xs)).map
      (fun d => if d < 0 then -d else 0)

/-- `Series.rolling(window=w).mean()` over an all-numeric series: `NaN` until
the window is full, then the arithmetic mean of the last `w` entries. -/
def rolling_mean (w : ℕ) (xs : List ℚ) : List PF :=
  (List.range xs.length).map fun i =>
    if i + 1 < w then PF.nan
    else PF.num ((((xs.take (i + 1)).drop (i + 1 - w)).sum) / (w : ℚ))

/-- `MetricsCalculator._calculate_rsi`: gains and losses over the deltas,
rolling means over the period, `RSI = 100 - 100/(1 + gain/loss)` at the last
bar; `None` only when the series is empty. -/
def calculate_rsi (prices : List ℚ) (period : ℕ) : Option PF :=
  let gain := rolling_mean period (gains prices)
  let loss := rolling_mean period (losses prices)
  let rsi := List.zipWith
    (fun g l => PF.sub (PF.num 100) (PF.div (PF.num 100) (PF.add (PF.num 1) (PF.div g l))))
    gain loss
  rsi.getLast?

/-- `Series.ewm(span, adjust=False).mean()`: the exponential moving average
seeded from the first value, smoothing factor `2/(span+1)`. -/
def ema (span : ℕ) : List ℚ → List ℚ
  | [] => []
  | x :: xs =>
      let alpha : ℚ := 2 / ((span : ℚ) + 1)
      List.scanl (fun prev v => alpha * v + (1 - alpha) * prev) x xs

/-- `MetricsCalculator._calculate_macd`: latest values of the MACD line, the
signal line and the histogram; the all-`None` dictionary exactly when the
series is empty (the `iloc[-1]` lookup raises and is caught). -/
def calculate_macd (prices : List ℚ) (fast slow signal : ℕ) :
    Option ℚ × Option ℚ × Option ℚ :=
  let exp1 := ema fast prices
  let exp2 := ema slow prices
  let macd := List.zipWith (fun a b => a - b) exp1 exp2
  let signal_line := ema signal macd
  let histogram := List.zipWith (fun a b => a - b) macd signal_line
  (macd.getLast?, signal_line.getLast?, histogram.getLast?)

/-- A rational stand-in for the floating-point square root used inside the
Bollinger standard deviation. No theorem in this development depends on the
value it returns, only on whether the surrounding computation is a number. -/
def float_sqrt (q : ℚ) : ℚ :=
  Rat.sqrt q

/-- `Series.rolling(window=w).std()` (sample standard deviation, `ddof=1`):
`NaN` until the window is full and whenever `w ≤ 1`, else the square root of
the sample variance of the last `w` entries. -/
def rolling_std (w : ℕ) (xs : List ℚ) : List PF :=
  (List.range xs.length).map fun i =>
    if i + 1 < w ∨ w ≤ 1 then PF.nan
    else
      let window := (xs.take (i + 1)).drop (i + 1 - w)
      let mean := window.sum / (w : ℚ)
      PF.num (float_sqrt ((window.map (fun x => (x - mean) ^ 2)).sum / ((w : ℚ) - 1)))

/-- `MetricsCalculator._calculate_bollinger_bands`: mean plus-or-minus
`std_dev` sample standard deviations at the latest bar; the all-`None`
dictionary exactly when the series is empty. -/
def calculate_bollinger_bands (prices : List ℚ) (period : ℕ) (std_dev : ℚ) :
    Option PF × Option PF × Option PF :=
  let sma := rolling_mean period prices
  let std := rolling_std period prices
  let upper_band := List.zipWith (fun m s => PF.add m (PF.smul std_dev s)) sma std
  let lower_band := List.zipWith (fun m s => PF.sub m (PF.smul std_dev s)) sma std
  (upper_band.getLast?, sma.getLast?, lower_band.getLast?)

/-- `MetricsCalculator._calculate_fibonacci`: retracement levels between the
window's high and low (on an empty frame pandas `max`/`min` return `NaN` and
the dictionary is built from `NaN` values, caught by no branch). -/
def calculate_fibonacci (hist : List Bar) : List (String × PF) :=
  match hist with
  | [] =>
      [("0.0", PF.nan), ("0.236", PF.nan), ("0.382", PF.nan), ("0.500", PF.nan),
       ("0.618", PF.nan), ("0.786", PF.nan), ("1.0", PF.nan)]
  | b :: bs =>
      let high := (bs.map Bar.high).foldl max b.high
      let low := (bs.map Bar.low).foldl min b.low
      let diff := high - low
      [("0.0", PF.num high),
       ("0.236", PF.num (high - 0.236 * diff)),
       ("0.382", PF.num (high - 0.382 * diff)),
       ("0.500", PF.num (high - 0.500 * diff)),
       ("0.618", PF.num (high - 0.618 * diff)),
       ("0.786", PF.num (high - 0.786 * diff)),
       ("1.0", PF.num low)]

/-- `prices.cummax()`: the running maximum. -/
def cummax : List ℚ → List ℚ
  | [] => []
  | x :: xs => List.scanl max x xs

/-- `MetricsCalculator._calculate_max_drawdown`: the most negative value of
`(price - running_max)/running_max`, as a percentage (Series division, so a
running maximum of `0` produces a special value rather than raising; the
`except` branch is unreachable on well-typed input). -/
def calculate_max_drawdown (prices : List ℚ) : Option PF :=
  let drawdown := List.zipWith (fun p cm => pf_div_q (p - cm) cm) prices (cummax prices)
  some (PF.smul 100 (pf_min drawdown))

/-! ## Metrics calculator: fundamentals and record assembly -/

/-- The yfinance `info` fields the calculator reads, each independently
nullable. -/
structure FundInfo where
  pegRatio : Option ℚ
  returnOnEquity : Option ℚ
  trailingEps : Option ℚ
  freeCashflow : Option ℚ
  sharesOutstanding : Option ℚ
  earningsGrowth : Option ℚ
deriving DecidableEq

/-- Python truthiness on an optional number: `x if x else None` keeps a value
exactly when it is present and nonzero. -/
def truthy (x : Option ℚ) : Option ℚ :=
  match x with
  | some v => if v = 0 then none else some v
  | none => none

/-- `MetricsCalculator._calculate_dcf`: requires truthy free cash flow and
truthy shares outstanding; terminal value at 10% discount and 3% growth,
divided by the shares. -/
def calculate_dcf (info : FundInfo) : Option ℚ :=
  match truthy info.freeCashflow, truthy info.sharesOutstanding with
  | some fcf, some shares =>
      let discount_rate : ℚ := 0.10
      let growth_rate : ℚ := 0.03
      let terminal_value := fcf * (1 + growth_rate) / (discount_rate - growth_rate)
      some (terminal_value / shares)
  | _, _ => none

/-- `MetricsCalculator._calculate_intrinsic_value` (Graham's formula):
requires truthy trailing EPS; `g` is the earnings growth times `100` when
truthy, else the default `10`; value `EPS * (8.5 + 2g) * 4.4 / 4.5`. -/
def calculate_intrinsic_value (info : FundInfo) : Option ℚ :=
  match truthy info.trailingEps with
  | none => none
  | some eps =>
      let g : ℚ :=
        match truthy info.earningsGrowth with
        | some growth => growth * 100
        | none => 10
      some (eps * (8.5 + 2 * g) * 4.4 / 4.5)

/-- The dictionary built by `MetricsCalculator._calculate_fundamentals`. -/
structure Fundamentals where
  peg_ratio : Option ℚ
  roe : Option ℚ
  eps : Option ℚ
  free_cash_flow : Option ℚ
  dcf_value : Option ℚ
  intrinsic_value : Option ℚ
deriving DecidableEq

/-- `MetricsCalculator._calculate_fundamentals`: each entry from its own
truthiness-guarded conversion; ROE is scaled to a percentage; the DCF and
Graham values from their own helpers. On numeric-or-absent input no statement
of the shared `try` block can raise, so every entry is always computed. -/
def calculate_fundamentals (info : FundInfo) : Fundamentals :=
  { peg_ratio := truthy info.pegRatio,
    roe :=
      match truthy info.returnOnEquity with
      | some r => some (r * 100)
      | none => none,
    eps := truthy info.trailingEps,
    free_cash_flow := truthy info.freeCashflow,
    dcf_value := calculate_dcf info,
    intrinsic_value := calculate_intrinsic_value info }

/-- The dictionary built by `MetricsCalculator._calculate_technicals`. RSI,
Bollinger and drawdown entries are pandas floats (an indicator that cannot be
computed from the window surfaces as `NaN` inside a present entry). -/
structure Technicals where
  current_price : Option ℚ
  rsi : Option PF
  macd : Option ℚ
  macd_signal : Option ℚ
  macd_histogram : Option ℚ
  fibonacci_levels : Option (List (String × PF))
  bollinger_upper : Option PF
  bollinger_middle : Option PF
  bollinger_lower : Option PF
  max_drawdown : Option PF
deriving DecidableEq

/-- `MetricsCalculator._calculate_technicals`: on an empty frame the very
first statement (`hist['Close'].iloc[-1]`) raises, the shared `try` catches
it and every entry of the dictionary is absent; on a non-empty frame each
entry is its own sub-computation on the close (or high/low) series. -/
def calculate_technicals (cfg : Config) (hist : List Bar) : Technicals :=
  match hist with
  | [] =>
      { current_price := none, rsi := none, macd := none, macd_signal := none,
        macd_histogram := none, fibonacci_levels := none, bollinger_upper := none,
        bollinger_middle := none, bollinger_lower := none, max_drawdown := none }
  | _ :: _ =>
      let closes := hist.map Bar.close
      let macd_dict := calculate_macd closes cfg.MACD_FAST cfg.MACD_SLOW cfg.MACD_SIGNAL
      let bb_dict := calculate_bollinger_bands closes cfg.BOLLINGER_PERIOD cfg.BOLLINGER_STD
      { current_price := closes.getLast?,
        rsi := calculate_rsi closes cfg.RSI_PERIOD,
        macd := macd_dict.1,
        macd_signal := macd_dict.2.1,
        macd_histogram := macd_dict.2.2,
        fibonacci_levels := some (calculate_fibonacci hist),
        bollinger_upper := bb_dict.1,
        bollinger_middle := bb_dict.2.1,
        bollinger_lower := bb_dict.2.2,
        max_drawdown := calculate_max_drawdown closes }

/-! ## Theorems -/

/-- The clamp `max(-1.0, min(1.0, x))` that ends every component-score
computation lands in `[-1, 1]`. -/
theorem clamp_mem_Icc (x : ℚ) : -1 ≤ max (-1) (min 1 x) ∧ max (-1) (min 1 x) ≤ 1 :=
  ⟨le_max_left _ _, max_le (by norm_num) (min_le_left _ _)⟩

/-- Every sentiment component score lies in `[-1, 1]`. -/
theorem sentiment_score_mem (cfg : Config) (news_item : NewsItem) :
    -1 ≤ calculate_sentiment_score cfg news_item ∧
      calculate_sentiment_score cfg news_item ≤ 1 := by
  cases hs : news_item.sentiment_score with
  | none => simp only [calculate_sentiment_score, hs]; norm_num
  | some s => simp only [calculate_sentiment_score, hs]; exact clamp_mem_Icc _

/-- Every fundamental component score lies in `[-1, 1]`. -/
theorem fundamental_score_mem (metrics : Option StockMetrics) :
    -1 ≤ calculate_fundamental_score metrics ∧
      calculate_fundamental_score metrics ≤ 1 := by
  cases metrics with
  | none => simp only [calculate_fundamental_score]; norm_num
  | some m => exact clamp_mem_Icc _

/-- Every technical component score lies in `[-1, 1]`. -/
theorem technical_score_mem (metrics : Option StockMetrics) :
    -1 ≤ calculate_technical_score metrics ∧
      calculate_technical_score metrics ≤ 1 := by
  cases metrics with
  | none => simp only [calculate_technical_score]; norm_num
  | some m => exact clamp_mem_Icc _

/-- C1 (amended): each component score lies in `[-1, 1]` unconditionally, and
the combined score lies in `[-1, 1]` whenever the three configured weights
are nonnegative and sum to `1.0`. (As frozen — with the weights constrained
only to sum to `1.0` — the combined-score bound fails: see
`C1_counterexample`.) -/
theorem C1_scores_bounded (cfg : Config) (news_item : NewsItem)
    (metrics : Option StockMetrics) :
    (-1 ≤ calculate_sentiment_score cfg news_item ∧
      calculate_sentiment_score cfg news_item ≤ 1) ∧
    (-1 ≤ calculate_fundamental_score metrics ∧
      calculate_fundamental_score metrics ≤ 1) ∧
    (-1 ≤ calculate_technical_score metrics ∧
      calculate_technical_score metrics ≤ 1) ∧
    (0 ≤ cfg.SENTIMENT_WEIGHT → 0 ≤ cfg.FUNDAMENTAL_WEIGHT →
      0 ≤ cfg.TECHNICAL_WEIGHT →
      cfg.SENTIMENT_WEIGHT + cfg.FUNDAMENTAL_WEIGHT + cfg.TECHNICAL_WEIGHT = 1 →
      -1 ≤ (generate_signal cfg news_item metrics).decision_score ∧
        (generate_signal cfg news_item metrics).decision_score ≤ 1) := by
  obtain ⟨hs1, hs2⟩ := sentiment_score_mem cfg news_item
  obtain ⟨hf1, hf2⟩ := fundamental_score_mem metrics
  obtain ⟨ht1, ht2⟩ := technical_score_mem metrics
  refine ⟨⟨hs1, hs2⟩, ⟨hf1, hf2⟩, ⟨ht1, ht2⟩, fun hw1 hw2 hw3 hsum => ?_⟩
  have hds : (generate_signal cfg news_item metrics).decision_score =
      calculate_sentiment_score cfg news_item * cfg.SENTIMENT_WEIGHT +
      calculate_fundamental_score metrics * cfg.FUNDAMENTAL_WEIGHT +
      calculate_technical_score metrics * cfg.TECHNICAL_WEIGHT := rfl
  rw [hds]
  constructor
  · nlinarith [mul_nonneg hw1 (by linarith : (0 : ℚ) ≤ calculate_sentiment_score cfg news_item + 1),
      mul_nonneg hw2 (by linarith : (0 : ℚ) ≤ calculate_fundamental_score metrics + 1),
      mul_nonneg hw3 (by linarith : (0 : ℚ) ≤ calculate_technical_score metrics + 1)]
  · nlinarith [mul_nonneg hw1 (by linarith : (0 : ℚ) ≤ 1 - calculate_sentiment_score cfg news_item),
      mul_nonneg hw2 (by linarith : (0 : ℚ) ≤ 1 - calculate_fundamental_score metrics),
      mul_nonneg hw3 (by linarith : (0 : ℚ) ≤ 1 - calculate_technical_score metrics)]

/-- A configuration whose weights sum to `1.0` without being nonnegative,
used only to refute the frozen form of C1. -/
def c1CexConfig : Config :=
  { SENTIMENT_WEIGHT := 2, FUNDAMENTAL_WEIGHT := -1, TECHNICAL_WEIGHT := 0,
    SENTIMENT_HIGH_CONFIDENCE_THRESHOLD := 0.7, STRONG_BUY_THRESHOLD := 0.5,
    BUY_THRESHOLD := 0.2, SELL_THRESHOLD := -0.2, STRONG_SELL_THRESHOLD := -0.5,
    RSI_PERIOD := 14, MACD_FAST := 12, MACD_SLOW := 26, MACD_SIGNAL := 9,
    BOLLINGER_PERIOD := 20, BOLLINGER_STD := 2 }

/-- C1 counterexample: with weights `(2, -1, 0)` — which sum to `1.0` — and a
news item of full positive polarity, the combined score is `2`, outside
`[-1, 1]`: the frozen claim needs nonnegative weights. -/
theorem C1_counterexample :
    c1CexConfig.SENTIMENT_WEIGHT + c1CexConfig.FUNDAMENTAL_WEIGHT +
      c1CexConfig.TECHNICAL_WEIGHT = 1 ∧
    1 < (generate_signal c1CexConfig
      { sentiment_score := some 1, sentiment_confidence := none,
        sentiment_label := SentimentLabel.NEUTRAL } none).decision_score := by
  constructor
  · norm_num [c1CexConfig]
  · norm_num [generate_signal, c1CexConfig, calculate_sentiment_score,
      calculate_fundamental_score, calculate_technical_score]

/-- C1 witness: the amended theorem applied at nonnegative weights
`(0.4, 0.3, 0.3)` and a concrete high-confidence positive news item. -/
theorem C1_scores_bounded_witness :
    -1 ≤ (generate_signal
        { SENTIMENT_WEIGHT := 0.4, FUNDAMENTAL_WEIGHT := 0.3, TECHNICAL_WEIGHT := 0.3,
          SENTIMENT_HIGH_CONFIDENCE_THRESHOLD := 0.7, STRONG_BUY_THRESHOLD := 0.5,
          BUY_THRESHOLD := 0.2, SELL_THRESHOLD := -0.2, STRONG_SELL_THRESHOLD := -0.5,
          RSI_PERIOD := 14, MACD_FAST := 12, MACD_SLOW := 26, MACD_SIGNAL := 9,
          BOLLINGER_PERIOD := 20, BOLLINGER_STD := 2 }
        { sentiment_score := some 0.9, sentiment_confidence := some 0.95,
          sentiment_label := SentimentLabel.POSITIVE } none).decision_score ∧
      (generate_signal
        { SENTIMENT_WEIGHT := 0.4, FUNDAMENTAL_WEIGHT := 0.3, TECHNICAL_WEIGHT := 0.3,
          SENTIMENT_HIGH_CONFIDENCE_THRESHOLD := 0.7, STRONG_BUY_THRESHOLD := 0.5,
          BUY_THRESHOLD := 0.2, SELL_THRESHOLD := -0.2, STRONG_SELL_THRESHOLD := -0.5,
          RSI_PERIOD := 14, MACD_FAST := 12, MACD_SLOW := 26, MACD_SIGNAL := 9,
          BOLLINGER_PERIOD := 20, BOLLINGER_STD := 2 }
        { sentiment_score := some 0.9, sentiment_confidence := some 0.95,
          sentiment_label := SentimentLabel.POSITIVE } none).decision_score ≤ 1 :=
  (C1_scores_bounded _ _ _).2.2.2 (by norm_num) (by norm_num) (by norm_num) (by norm_num)

/-- C2: the decision tag is exactly the first match of the ordered guard
chain — `STRONG_BUY` on reaching the strong-buy threshold; else `BUY` on the
buy threshold; else `STRONG_SELL` at or below the strong-sell threshold; else
`SELL` at or below the sell threshold; else `HOLD`. -/
theorem C2_decision_guard_chain (cfg : Config) (s : ℚ) :
    (score_to_decision cfg s = DecisionTag.STRONG_BUY ↔
      cfg.STRONG_BUY_THRESHOLD ≤ s) ∧
    (score_to_decision cfg s = DecisionTag.BUY ↔
      ¬ cfg.STRONG_BUY_THRESHOLD ≤ s ∧ cfg.BUY_THRESHOLD ≤ s) ∧
    (score_to_decision cfg s = DecisionTag.STRONG_SELL ↔
      ¬ cfg.STRONG_BUY_THRESHOLD ≤ s ∧ ¬ cfg.BUY_THRESHOLD ≤ s ∧
        s ≤ cfg.STRONG_SELL_THRESHOLD) ∧
    (score_to_decision cfg s = DecisionTag.SELL ↔
      ¬ cfg.STRONG_BUY_THRESHOLD ≤ s ∧ ¬ cfg.BUY_THRESHOLD ≤ s ∧
        ¬ s ≤ cfg.STRONG_SELL_THRESHOLD ∧ s ≤ cfg.SELL_THRESHOLD) ∧
    (score_to_decision cfg s = DecisionTag.HOLD ↔
      ¬ cfg.STRONG_BUY_THRESHOLD ≤ s ∧ ¬ cfg.BUY_THRESHOLD ≤ s ∧
        ¬ s ≤ cfg.STRONG_SELL_THRESHOLD ∧ ¬ s ≤ cfg.SELL_THRESHOLD) := by
  unfold score_to_decision
  split_ifs with h1 h2 h3 h4 <;> simp_all

/-- C3: with the metrics record entirely absent, the fundamental and
technical scores are exactly `0.0`, and both the combined score and the
decision are functions of the sentiment score and the sentiment weight
alone (total functions in this embedding: no error is raised). -/
theorem C3_sentiment_only_mode (cfg : Config) (news_item : NewsItem) :
    calculate_fundamental_score none = 0 ∧
    calculate_technical_score none = 0 ∧
    (generate_signal cfg news_item none).decision_score =
      calculate_sentiment_score cfg news_item * cfg.SENTIMENT_WEIGHT ∧
    (generate_signal cfg news_item none).decision =
      score_to_decision cfg
        (calculate_sentiment_score cfg news_item * cfg.SENTIMENT_WEIGHT) := by
  have hscore : calculate_sentiment_score cfg news_item * cfg.SENTIMENT_WEIGHT +
      calculate_fundamental_score none * cfg.FUNDAMENTAL_WEIGHT +
      calculate_technical_score none * cfg.TECHNICAL_WEIGHT =
      calculate_sentiment_score cfg news_item * cfg.SENTIMENT_WEIGHT := by
    show calculate_sentiment_score cfg news_item * cfg.SENTIMENT_WEIGHT +
      0 * cfg.FUNDAMENTAL_WEIGHT + 0 * cfg.TECHNICAL_WEIGHT = _
    ring
  refine ⟨rfl, rfl, hscore, ?_⟩
  show score_to_decision cfg (calculate_sentiment_score cfg news_item *
      cfg.SENTIMENT_WEIGHT + calculate_fundamental_score none * cfg.FUNDAMENTAL_WEIGHT +
      calculate_technical_score none * cfg.TECHNICAL_WEIGHT) = _
  rw [hscore]

/-- C6: a PEG ratio in `[2, 3]`, an ROE in `[10, 15]`, and a max drawdown of
at least `-20` each contribute `0` to their component's running sum while
still incrementing the averaging count; consequently a zero-delta PEG check
dampens the average (a lone `EPS > 5` scores `0.3`, but paired with a PEG in
`[2, 3]` the fundamental score halves to `0.15`). -/
theorem C6_zero_delta_checks_still_count (p r d e : ℚ) :
    (2 ≤ p → p ≤ 3 → peg_check (some p) = (0, 1)) ∧
    (10 ≤ r → r ≤ 15 → roe_check (some r) = (0, 1)) ∧
    (-20 ≤ d → drawdown_check (some d) = (0, 1)) ∧
    (2 ≤ p → p ≤ 3 → 5 < e →
      calculate_fundamental_score
        (some { emptyMetrics with peg_ratio := some p, eps := some e }) = 0.15) := by
  have hpeg : 2 ≤ p → p ≤ 3 → peg_check (some p) = (0, 1) := by
    intro h1 h2
    simp only [peg_check]
    split_ifs with a b c
    · exact absurd a (by linarith)
    · exact absurd b (by linarith)
    · exact absurd c (by linarith)
    · rfl
  refine ⟨hpeg, fun h1 h2 => ?_, fun h1 => ?_, fun h1 h2 h3 => ?_⟩
  · simp only [roe_check]
    split_ifs with a b c
    · exact absurd a (by linarith)
    · exact absurd b (by linarith)
    · exact absurd c (by linarith)
    · rfl
  · simp only [drawdown_check]
    split_ifs with a b
    · exact absurd a (by linarith)
    · exact absurd b (by linarith)
    · rfl
  · have heps : eps_check (some e) = (0.3, 1) := by
      simp only [eps_check]
      rw [if_pos h3]
    simp only [calculate_fundamental_score, emptyMetrics]
    rw [hpeg h1 h2, heps]
    norm_num [roe_check, value_check]

/-- C6 witness: the theorem applied at PEG `2.5`, ROE `12`, drawdown `-5`
and EPS `6`. -/
theorem C6_zero_delta_checks_still_count_witness :
    peg_check (some 2.5) = (0, 1) ∧ roe_check (some 12) = (0, 1) ∧
    drawdown_check (some (-5)) = (0, 1) ∧
    calculate_fundamental_score
      (some { emptyMetrics with peg_ratio := some 2.5, eps := some 6 }) = 0.15 :=
  ⟨(C6_zero_delta_checks_still_count 2.5 12 (-5) 6).1 (by norm_num) (by norm_num),
   (C6_zero_delta_checks_still_count 2.5 12 (-5) 6).2.1 (by norm_num) (by norm_num),
   (C6_zero_delta_checks_still_count 2.5 12 (-5) 6).2.2.1 (by norm_num),
   (C6_zero_delta_checks_still_count 2.5 12 (-5) 6).2.2.2 (by norm_num) (by norm_num)
     (by norm_num)⟩

/-- C8: when the Bollinger band range is positive and the position
`(current - lower)/(upper - lower)` is exactly `0.2`, the technical scorer
takes the `[0.2, 0.4)` branch and contributes `+0.2`, not the `< 0.2`
branch's `+0.4`. -/
theorem C8_bollinger_boundary (cp up lo mid : ℚ)
    (hrange : 0 < up - lo) (hpos : (cp - lo) / (up - lo) = 0.2) :
    boll_check (some cp) (some up) (some lo) (some mid) = (0.2, 1) := by
  simp only [boll_check]
  rw [if_pos hrange, hpos]
  norm_num

/-- C8 witness: the theorem applied at price `2` with bands `0`/`5`/`10`,
where the position is exactly `0.2`. -/
theorem C8_bollinger_boundary_witness :
    boll_check (some 2) (some 10) (some 0) (some 5) = (0.2, 1) :=
  C8_bollinger_boundary 2 10 0 5 (by norm_num) (by norm_num)

/-- C7 counterexample: the Graham computation is guarded by Python truthiness
(`if not eps`, `if growth`), not by presence. With trailing EPS present but
equal to `0` the result is unavailable although EPS is not missing; with
EPS `3` and a present growth of exactly `0` the result uses the default
growth `10`, not `0 * 100` as the frozen claim's formula states. -/
theorem C7_counterexample :
    (({ pegRatio := none, returnOnEquity := none, trailingEps := some 0,
        freeCashflow := none, sharesOutstanding := none,
        earningsGrowth := none } : FundInfo).trailingEps).isSome = true ∧
    calculate_intrinsic_value
      { pegRatio := none, returnOnEquity := none, trailingEps := some 0,
        freeCashflow := none, sharesOutstanding := none, earningsGrowth := none } =
      none ∧
    calculate_intrinsic_value
      { pegRatio := none, returnOnEquity := none, trailingEps := some 3,
        freeCashflow := none, sharesOutstanding := none, earningsGrowth := some 0 } ≠
      some (3 * (8.5 + 2 * (0 * 100)) * 4.4 / 4.5) := by
  refine ⟨rfl, by simp [calculate_intrinsic_value, truthy], ?_⟩
  simp only [calculate_intrinsic_value, truthy]
  norm_num

/-- C7 (amended): with trailing EPS present and nonzero, the Graham value is
`EPS * (8.5 + 2g) * 4.4 / 4.5` where `g` is the forward earnings growth
times `100` when that growth is present and nonzero, and the default `10`
when the growth is absent or zero; the computation is unavailable exactly
when EPS is missing or zero. -/
theorem C7_graham_formula (info : FundInfo) :
    (calculate_intrinsic_value info = none ↔
      info.trailingEps = none ∨ info.trailingEps = some 0) ∧
    (∀ e g, info.trailingEps = some e → e ≠ 0 →
      info.earningsGrowth = some g → g ≠ 0 →
      calculate_intrinsic_value info = some (e * (8.5 + 2 * (g * 100)) * 4.4 / 4.5)) ∧
    (∀ e, info.trailingEps = some e → e ≠ 0 →
      (info.earningsGrowth = none ∨ info.earningsGrowth = some 0) →
      calculate_intrinsic_value info = some (e * (8.5 + 2 * 10) * 4.4 / 4.5)) := by
  refine ⟨?_, ?_, ?_⟩
  · cases he : info.trailingEps with
    | none => simp [calculate_intrinsic_value, truthy, he]
    | some e =>
        by_cases h0 : e = 0
        · subst h0; simp [calculate_intrinsic_value, truthy, he]
        · simp [calculate_intrinsic_value, truthy, he, h0]
  · intro e g he hne hg hgne
    simp [calculate_intrinsic_value, truthy, he, hne, hg, hgne]
  · intro e he hne hcases
    rcases hcases with hg | hg <;> simp [calculate_intrinsic_value, truthy, he, hne, hg]

/-- C7 witness: the amended theorem applied at EPS `3` with growth `0.1`
(`g = 10`, value `83.6`) and at EPS `3` with growth exactly `0` (default
`g = 10`). -/
theorem C7_graham_formula_witness :
    calculate_intrinsic_value
      { pegRatio := none, returnOnEquity := none, trailingEps := some 3,
        freeCashflow := none, sharesOutstanding := none,
        earningsGrowth := some (1 / 10) } =
      some (3 * (8.5 + 2 * (1 / 10 * 100)) * 4.4 / 4.5) ∧
    calculate_intrinsic_value
      { pegRatio := none, returnOnEquity := none, trailingEps := some 3,
        freeCashflow := none, sharesOutstanding := none, earningsGrowth := some 0 } =
      some (3 * (8.5 + 2 * 10) * 4.4 / 4.5) :=
  ⟨(C7_graham_formula _).2.1 3 (1 / 10) rfl (by norm_num) rfl (by norm_num),
   (C7_graham_formula _).2.2 3 rfl (by norm_num) (Or.inr rfl)⟩

/-- C10: a numeric field equal to exactly `0` is treated as absent by the
calculator's truthiness guards — DCF is unavailable when free cash flow or
shares outstanding is `0`; the Graham value is unavailable when trailing EPS
is `0`; zero PEG/ROE/EPS/FCF are recorded as missing in the fundamentals
dictionary; and a present earnings growth of exactly `0` falls back to the
default growth `10`. -/
theorem C10_zero_treated_as_absent (info : FundInfo) :
    (info.freeCashflow = some 0 → calculate_dcf info = none) ∧
    (info.sharesOutstanding = some 0 → calculate_dcf info = none) ∧
    (info.trailingEps = some 0 → calculate_intrinsic_value info = none) ∧
    (info.pegRatio = some 0 → (calculate_fundamentals info).peg_ratio = none) ∧
    (info.returnOnEquity = some 0 → (calculate_fundamentals info).roe = none) ∧
    (info.trailingEps = some 0 → (calculate_fundamentals info).eps = none) ∧
    (info.freeCashflow = some 0 → (calculate_fundamentals info).free_cash_flow = none) ∧
    (∀ e, info.trailingEps = some e → e ≠ 0 → info.earningsGrowth = some 0 →
      calculate_intrinsic_value info = some (e * (8.5 + 2 * 10) * 4.4 / 4.5)) := by
  refine ⟨fun h => ?_, fun h => ?_, fun h => ?_, fun h => ?_, fun h => ?_,
    fun h => ?_, fun h => ?_, fun e he hne hg => ?_⟩
  · simp [calculate_dcf, truthy, h]
  · cases hf : info.freeCashflow with
    | none => simp [calculate_dcf, truthy, h, hf]
    | some v =>
        by_cases hv : v = 0 <;> simp [calculate_dcf, truthy, h, hf, hv]
  · simp [calculate_intrinsic_value, truthy, h]
  · simp [calculate_fundamentals, truthy, h]
  · simp [calculate_fundamentals, truthy, h]
  · simp [calculate_fundamentals, truthy, h]
  · simp [calculate_fundamentals, truthy, h]
  · simp [calculate_intrinsic_value, truthy, he, hne, hg]

/-- C10 witness: the theorem applied at the all-zero fundamentals mapping,
and (for the growth fallback) at EPS `2` with growth `0`. -/
theorem C10_zero_treated_as_absent_witness :
    calculate_dcf
      { pegRatio := some 0, returnOnEquity := some 0, trailingEps := some 0,
        freeCashflow := some 0, sharesOutstanding := some 0,
        earningsGrowth := some 0 } = none ∧
    (calculate_fundamentals
      { pegRatio := some 0, returnOnEquity := some 0, trailingEps := some 0,
        freeCashflow := some 0, sharesOutstanding := some 0,
        earningsGrowth := some 0 }).peg_ratio = none ∧
    (calculate_fundamentals
      { pegRatio := some 0, returnOnEquity := some 0, trailingEps := some 0,
        freeCashflow := some 0, sharesOutstanding := some 0,
        earningsGrowth := some 0 }).roe = none ∧
    calculate_intrinsic_value
      { pegRatio := none, returnOnEquity := none, trailingEps := some 2,
        freeCashflow := none, sharesOutstanding := none, earningsGrowth := some 0 } =
      some (2 * (8.5 + 2 * 10) * 4.4 / 4.5) :=
  ⟨(C10_zero_treated_as_absent _).1 rfl,
   (C10_zero_treated_as_absent _).2.2.2.1 rfl,
   (C10_zero_treated_as_absent _).2.2.2.2.1 rfl,
   (C10_zero_treated_as_absent _).2.2.2.2.2.2.2 2 rfl (by norm_num) rfl⟩

/-! ## List-length facts used to show which technical entries are present -/

/-- `gains` preserves the series length. -/
theorem gains_length (xs : List ℚ) : (gains xs).length = xs.length := by
  cases xs with
  | nil => rfl
  | cons x xs => simp [gains]

/-- `losses` preserves the series length. -/
theorem losses_length (xs : List ℚ) : (losses xs).length = xs.length := by
  cases xs with
  | nil => rfl
  | cons x xs => simp [losses]

/-- `rolling_mean` preserves the series length. -/
theorem rolling_mean_length (w : ℕ) (xs : List ℚ) :
    (rolling_mean w xs).length = xs.length := by
  simp [rolling_mean]

/-- `rolling_std` preserves the series length. -/
theorem rolling_std_length (w : ℕ) (xs : List ℚ) :
    (rolling_std w xs).length = xs.length := by
  simp [rolling_std]

/-- `ema` preserves the series length. -/
theorem ema_length (span : ℕ) (xs : List ℚ) : (ema span xs).length = xs.length := by
  cases xs with
  | nil => rfl
  | cons x xs => simp [ema, List.length_scanl]

/-- On a non-empty close series the RSI entry of the dictionary is present
(it may be `NaN` inside the `some`, but it is never `None`). -/
theorem calculate_rsi_ne_none (xs : List ℚ) (p : ℕ) (h : xs ≠ []) :
    calculate_rsi xs p ≠ none := by
  simp only [calculate_rsi, Ne, List.getLast?_eq_none_iff]
  intro hl
  apply h
  have := congrArg List.length hl
  simp [List.length_zipWith, rolling_mean_length, gains_length, losses_length] at this
  exact this

/-- On a non-empty close series all three MACD entries are present. -/
theorem calculate_macd_ne_none (xs : List ℚ) (fast slow signal : ℕ) (h : xs ≠ []) :
    (calculate_macd xs fast slow signal).1 ≠ none ∧
    (calculate_macd xs fast slow signal).2.1 ≠ none ∧
    (calculate_macd xs fast slow signal).2.2 ≠ none := by
  have hlen : ∀ l : List ℚ, l.length = xs.length → l ≠ [] := by
    intro l hl hnil
    apply h
    rw [hnil] at hl
    exact List.length_eq_zero.mp hl.symm
  refine ⟨?_, ?_, ?_⟩ <;>
    simp only [calculate_macd, Ne, List.getLast?_eq_none_iff] <;>
    intro hl
  · exact hlen _ (by simp [List.length_zipWith, ema_length]) hl
  · exact hlen _ (by simp [ema_length, List.length_zipWith]) hl
  · exact hlen _ (by simp [List.length_zipWith, ema_length]) hl

/-- On a non-empty close series all three Bollinger entries are present. -/
theorem calculate_bollinger_ne_none (xs : List ℚ) (period : ℕ) (k : ℚ) (h : xs ≠ []) :
    (calculate_bollinger_bands xs period k).1 ≠ none ∧
    (calculate_bollinger_bands xs period k).2.1 ≠ none ∧
    (calculate_bollinger_bands xs period k).2.2 ≠ none := by
  have hlen : ∀ {α : Type} (l : List α), l.length = xs.length → l ≠ [] := by
    intro α l hl hnil
    apply h
    rw [hnil] at hl
    exact List.length_eq_zero.mp hl.symm
  refine ⟨?_, ?_, ?_⟩ <;>
    simp only [calculate_bollinger_bands, Ne, List.getLast?_eq_none_iff] <;>
    intro hl
  · exact hlen _ (by simp [List.length_zipWith, rolling_mean_length, rolling_std_length]) hl
  · exact hlen _ (by simp [rolling_mean_length]) hl
  · exact hlen _ (by simp [List.length_zipWith, rolling_mean_length, rolling_std_length]) hl

/-- C5 (documenting the code bug): on an empty close series `_calculate_rsi`
does return unavailable (`None`), but on a series of 3 bars with period 14 —
fewer than `period` bars, where the claim requires `None` — the incomplete
rolling windows propagate `NaN` and the function returns it as a present
float. -/
theorem C5_rsi_short_series_is_nan_not_none :
    calculate_rsi ([] : List ℚ) 14 = none ∧
    calculate_rsi ([10, 11, 12] : List ℚ) 14 = some PF.nan ∧
    calculate_rsi ([10, 11, 12] : List ℚ) 14 ≠ none := by
  refine ⟨rfl, ?_, ?_⟩
  · norm_num [calculate_rsi, rolling_mean, gains, losses, List.range_succ,
      PF.div, PF.add, PF.sub]
  · exact calculate_rsi_ne_none _ _ (by simp)

/-- A concrete configuration with the spec's default indicator parameters
(RSI period 14, MACD 12/26/9, Bollinger 20/2), used for concrete technicals
evaluations. -/
def stdConfig : Config :=
  { SENTIMENT_WEIGHT := 0.4, FUNDAMENTAL_WEIGHT := 0.3, TECHNICAL_WEIGHT := 0.3,
    SENTIMENT_HIGH_CONFIDENCE_THRESHOLD := 0.7, STRONG_BUY_THRESHOLD := 0.5,
    BUY_THRESHOLD := 0.2, SELL_THRESHOLD := -0.2, STRONG_SELL_THRESHOLD := -0.5,
    RSI_PERIOD := 14, MACD_FAST := 12, MACD_SLOW := 26, MACD_SIGNAL := 9,
    BOLLINGER_PERIOD := 20, BOLLINGER_STD := 2 }

/-- C4 counterexample: on a 3-bar history the RSI sub-computation fails
(fewer than the 14-bar period), yet the metrics record does not report that
field as unavailable — it stores a present `NaN` — while the other entries
are computed. The frozen claim's "only the failed field reported as
unavailable" therefore fails on the technical side. -/
theorem C4_counterexample :
    (calculate_technicals stdConfig
      [⟨10, 2, 5⟩, ⟨8, 4, 6⟩, ⟨9, 5, 7⟩]).rsi = some PF.nan ∧
    (calculate_technicals stdConfig
      [⟨10, 2, 5⟩, ⟨8, 4, 6⟩, ⟨9, 5, 7⟩]).rsi ≠ none ∧
    (calculate_technicals stdConfig
      [⟨10, 2, 5⟩, ⟨8, 4, 6⟩, ⟨9, 5, 7⟩]).current_price = some 7 ∧
    ((calculate_technicals stdConfig
      [⟨10, 2, 5⟩, ⟨8, 4, 6⟩, ⟨9, 5, 7⟩]).macd_histogram).isSome = true ∧
    ((calculate_technicals stdConfig
      [⟨10, 2, 5⟩, ⟨8, 4, 6⟩, ⟨9, 5, 7⟩]).max_drawdown).isSome = true ∧
    ((calculate_technicals stdConfig
      [⟨10, 2, 5⟩, ⟨8, 4, 6⟩, ⟨9, 5, 7⟩]).fibonacci_levels).isSome = true := by
  refine ⟨?_, ?_, rfl, rfl, rfl, rfl⟩
  · show calculate_rsi [5, 6, 7] 14 = some PF.nan
    norm_num [calculate_rsi, rolling_mean, gains, losses, List.range_succ,
      PF.div, PF.add, PF.sub]
  · show calculate_rsi [5, 6, 7] 14 ≠ none
    exact calculate_rsi_ne_none _ _ (by simp)

/-- C4 (amended): the sub-computations of the metrics record are independent
and none of them can abort the record. Each fundamentals entry is a function
of only its own inputs (so a failure — an entry that is `None` — never
changes any other entry), and on a non-empty price history every technicals
entry equals its own standalone sub-computation and is present; a technical
sub-computation that cannot be computed from the window surfaces as `NaN`
inside its present entry rather than as unavailable (see
`C4_counterexample`). -/
theorem C4_sub_computations_independent (info info' : FundInfo) (cfg : Config)
    (hist : List Bar) :
    (info.pegRatio = info'.pegRatio →
      (calculate_fundamentals info).peg_ratio =
        (calculate_fundamentals info').peg_ratio) ∧
    (info.returnOnEquity = info'.returnOnEquity →
      (calculate_fundamentals info).roe = (calculate_fundamentals info').roe) ∧
    (info.trailingEps = info'.trailingEps →
      (calculate_fundamentals info).eps = (calculate_fundamentals info').eps) ∧
    (info.freeCashflow = info'.freeCashflow →
      (calculate_fundamentals info).free_cash_flow =
        (calculate_fundamentals info').free_cash_flow) ∧
    (info.freeCashflow = info'.freeCashflow →
      info.sharesOutstanding = info'.sharesOutstanding →
      (calculate_fundamentals info).dcf_value =
        (calculate_fundamentals info').dcf_value) ∧
    (info.trailingEps = info'.trailingEps →
      info.earningsGrowth = info'.earningsGrowth →
      (calculate_fundamentals info).intrinsic_value =
        (calculate_fundamentals info').intrinsic_value) ∧
    (hist ≠ [] →
      (calculate_technicals cfg hist).current_price = (hist.map Bar.close).getLast? ∧
      (calculate_technicals cfg hist).rsi =
        calculate_rsi (hist.map Bar.close) cfg.RSI_PERIOD ∧
      (calculate_technicals cfg hist).macd =
        (calculate_macd (hist.map Bar.close) cfg.MACD_FAST cfg.MACD_SLOW
          cfg.MACD_SIGNAL).1 ∧
      (calculate_technicals cfg hist).macd_signal =
        (calculate_macd (hist.map Bar.close) cfg.MACD_FAST cfg.MACD_SLOW
          cfg.MACD_SIGNAL).2.1 ∧
      (calculate_technicals cfg hist).macd_histogram =
        (calculate_macd (hist.map Bar.close) cfg.MACD_FAST cfg.MACD_SLOW
          cfg.MACD_SIGNAL).2.2 ∧
      (calculate_technicals cfg hist).bollinger_upper =
        (calculate_bollinger_bands (hist.map Bar.close) cfg.BOLLINGER_PERIOD
          cfg.BOLLINGER_STD).1 ∧
      (calculate_technicals cfg hist).bollinger_middle =
        (calculate_bollinger_bands (hist.map Bar.close) cfg.BOLLINGER_PERIOD
          cfg.BOLLINGER_STD).2.1 ∧
      (calculate_technicals cfg hist).bollinger_lower =
        (calculate_bollinger_bands (hist.map Bar.close) cfg.BOLLINGER_PERIOD
          cfg.BOLLINGER_STD).2.2 ∧
      (calculate_technicals cfg hist).fibonacci_levels =
        some (calculate_fibonacci hist) ∧
      (calculate_technicals cfg hist).max_drawdown =
        calculate_max_drawdown (hist.map Bar.close) ∧
      (calculate_technicals cfg hist).current_price ≠ none ∧
      (calculate_technicals cfg hist).rsi ≠ none ∧
      (calculate_technicals cfg hist).macd ≠ none ∧
      (calculate_technicals cfg hist).macd_signal ≠ none ∧
      (calculate_technicals cfg hist).macd_histogram ≠ none ∧
      (calculate_technicals cfg hist).bollinger_upper ≠ none ∧
      (calculate_technicals cfg hist).bollinger_middle ≠ none ∧
      (calculate_technicals cfg hist).bollinger_lower ≠ none ∧
      (calculate_technicals cfg hist).fibonacci_levels ≠ none ∧
      (calculate_technicals cfg hist).max_drawdown ≠ none) := by
  refine ⟨fun h => by simp [calculate_fundamentals, h],
    fun h => by simp [calculate_fundamentals, h],
    fun h => by simp [calculate_fundamentals, h],
    fun h => by simp [calculate_fundamentals, h],
    fun h1 h2 => by simp [calculate_fundamentals, calculate_dcf, h1, h2],
    fun h1 h2 => by simp [calculate_fundamentals, calculate_intrinsic_value, h1, h2],
    fun hne => ?_⟩
  obtain ⟨b, bs, rfl⟩ : ∃ b bs, hist = b :: bs := by
    cases hist with
    | nil => exact absurd rfl hne
    | cons b bs => exact ⟨b, bs, rfl⟩
  have hclose : (b :: bs).map Bar.close ≠ [] := by simp
  obtain ⟨hm1, hm2, hm3⟩ := calculate_macd_ne_none ((b :: bs).map Bar.close)
    cfg.MACD_FAST cfg.MACD_SLOW cfg.MACD_SIGNAL hclose
  obtain ⟨hb1, hb2, hb3⟩ := calculate_bollinger_ne_none ((b :: bs).map Bar.close)
    cfg.BOLLINGER_PERIOD cfg.BOLLINGER_STD hclose
  refine ⟨rfl, rfl, rfl, rfl, rfl, rfl, rfl, rfl, rfl, rfl,
    ?_, calculate_rsi_ne_none _ _ hclose, hm1, hm2, hm3, hb1, hb2, hb3,
    by simp [calculate_technicals], by simp [calculate_technicals, calculate_max_drawdown]⟩
  show ((b :: bs).map Bar.close).getLast? ≠ none
  simp [List.getLast?_eq_none_iff]

/-- C4 witness: the theorem applied to two fundamentals mappings that differ
only in free cash flow (present versus absent, so the DCF sub-computation
fails on the second) and to a concrete 3-bar history; the PEG and Graham
entries are unaffected, and the technicals entries are present. -/
theorem C4_sub_computations_independent_witness :
    (calculate_fundamentals
        { pegRatio := some 1, returnOnEquity := some 2, trailingEps := some 3,
          freeCashflow := some 100, sharesOutstanding := some 10,
          earningsGrowth := some (1 / 2) }).peg_ratio =
      (calculate_fundamentals
        { pegRatio := some 1, returnOnEquity := some 2, trailingEps := some 3,
          freeCashflow := none, sharesOutstanding := some 10,
          earningsGrowth := some (1 / 2) }).peg_ratio ∧
    (calculate_fundamentals
        { pegRatio := some 1, returnOnEquity := some 2, trailingEps := some 3,
          freeCashflow := some 100, sharesOutstanding := some 10,
          earningsGrowth := some (1 / 2) }).intrinsic_value =
      (calculate_fundamentals
        { pegRatio := some 1, returnOnEquity := some 2, trailingEps := some 3,
          freeCashflow := none, sharesOutstanding := some 10,
          earningsGrowth := some (1 / 2) }).intrinsic_value ∧
    (calculate_technicals stdConfig
        [⟨10, 2, 5⟩, ⟨8, 4, 6⟩, ⟨9, 5, 7⟩]).current_price = some 7 ∧
    (calculate_technicals stdConfig
        [⟨10, 2, 5⟩, ⟨8, 4, 6⟩, ⟨9, 5, 7⟩]).rsi ≠ none := by
  have h := C4_sub_computations_independent
    { pegRatio := some 1, returnOnEquity := some 2, trailingEps := some 3,
      freeCashflow := some 100, sharesOutstanding := some 10,
      earningsGrowth := some (1 / 2) }
    { pegRatio := some 1, returnOnEquity := some 2, trailingEps := some 3,
      freeCashflow := none, sharesOutstanding := some 10,
      earningsGrowth := some (1 / 2) }
    stdConfig [⟨10, 2, 5⟩, ⟨8, 4, 6⟩, ⟨9, 5, 7⟩]
  have h7 := h.2.2.2.2.2.2 (by simp)
  exact ⟨h.1 rfl, h.2.2.2.2.2.1 rfl rfl, h7.1.trans rfl,
    h7.2.2.2.2.2.2.2.2.2.2.2.1⟩

/-- C9 counterexample: the reasoning guards are Python truthiness, not the
scoring conditions. With a MACD histogram present and exactly `0`, the
scorer counts the check with delta `-0.3` but the falsy guard
`if metrics.macd_histogram:` emits no clause, so the reasoning is the
fallback clause plus the score suffix; and with intrinsic value `-20` and
current price `-10` the scorer skips the valuation check entirely (it
requires a positive price) while the reasoning emits an "Undervalued"
clause — a divergence at nonzero values. Both refute "the reasoning
string's clauses fire under exactly the same conditions as the scoring
checks". -/
theorem C9_counterexample :
    macd_check (some 0) = (-0.3, 1) ∧
    reason_list
      { sentiment_score := none, sentiment_confidence := none,
        sentiment_label := SentimentLabel.NEUTRAL }
      (some { emptyMetrics with macd_histogram := some 0 }) = [] ∧
    (generate_signal stdConfig
      { sentiment_score := none, sentiment_confidence := none,
        sentiment_label := SentimentLabel.NEUTRAL }
      (some { emptyMetrics with macd_histogram := some 0 })).reasoning =
      "Based on available data | Combined score: -0.09" ∧
    value_check (some (-20)) (some (-10)) = (0, 0) ∧
    reason_list
      { sentiment_score := none, sentiment_confidence := none,
        sentiment_label := SentimentLabel.NEUTRAL }
      (some { emptyMetrics with
                intrinsic_value := some (-20), current_price := some (-10) }) =
      ["Undervalued (200.0% of intrinsic value)"] := by
  refine ⟨by norm_num [macd_check], ?_, ?_, by norm_num [value_check], ?_⟩
  · simp [reason_list, sentiment_reasons, peg_reasons, roe_reasons, value_reasons,
      rsi_reasons, macd_reasons, emptyMetrics]
  · norm_num [generate_signal, generate_reasoning, reason_list, sentiment_reasons,
      peg_reasons, roe_reasons, value_reasons, rsi_reasons, macd_reasons,
      calculate_sentiment_score, calculate_fundamental_score, calculate_technical_score,
      peg_check, roe_check, eps_check, value_check, rsi_check, macd_check, boll_check,
      drawdown_check, emptyMetrics, stdConfig, fmtFixed, round_half_even, pad_zeros]
    rfl
  · norm_num [reason_list, sentiment_reasons, peg_reasons, roe_reasons, value_reasons,
      rsi_reasons, macd_reasons, emptyMetrics, fmtPercent, fmtFixed, round_half_even,
      pad_zeros]
    rfl

/-- C9 (amended): the reasoning clauses fire under the source's truthiness
guards rather than exactly the scoring conditions. A MACD clause appears
exactly when the histogram is present and nonzero (Bullish when positive,
Bearish when negative), while a histogram of exactly `0` is scored `-0.3`
with no clause; the valuation clause requires only truthy intrinsic value
and current price, so with a negative current price an "Undervalued" clause
appears (at ratio above `1.2`) even though the scorer skips the valuation
check; the reasoning string always ends with the combined score formatted
to two decimals. -/
theorem C9_reasoning_truthiness_guards (news_item : NewsItem)
    (m : StockMetrics) (mo : Option StockMetrics)
    (sentiment_score fundamental_score technical_score combined_score : ℚ) :
    (∀ h, m.macd_histogram = some h → h ≠ 0 →
      macd_reasons m = [if 0 < h then "Bullish MACD" else "Bearish MACD"] ∧
      (if 0 < h then "Bullish MACD" else "Bearish MACD") ∈
        reason_list news_item (some m)) ∧
    (m.macd_histogram = some 0 →
      macd_reasons m = [] ∧ macd_check m.macd_histogram = (-0.3, 1)) ∧
    (∀ iv cp, m.intrinsic_value = some iv → m.current_price = some cp →
      iv ≠ 0 → cp ≠ 0 →
      (1.2 < iv / cp →
        value_reasons m =
          ["Undervalued (" ++ fmtPercent 1 (iv / cp) ++ " of intrinsic value)"] ∧
        ("Undervalued (" ++ fmtPercent 1 (iv / cp) ++ " of intrinsic value)") ∈
          reason_list news_item (some m)) ∧
      (cp < 0 → value_check m.intrinsic_value m.current_price = (0, 0))) ∧
    (∃ pre, generate_reasoning news_item mo sentiment_score fundamental_score
        technical_score combined_score =
      pre ++ " | Combined score: " ++ fmtFixed 2 combined_score) := by
  refine ⟨fun h hh hne => ⟨by simp [macd_reasons, hh, hne], ?_⟩,
    fun h0 => ⟨by simp [macd_reasons, h0], by norm_num [macd_check, h0]⟩,
    fun iv cp hiv hcp hivne hcpne => ⟨fun hratio => ?_, fun hneg => ?_⟩,
    ⟨if (reason_list news_item mo).isEmpty then "Based on available data"
      else String.intercalate "; " (reason_list news_item mo), rfl⟩⟩
  · simp [reason_list, macd_reasons, hh, hne]
  · have hv : value_reasons m =
        ["Undervalued (" ++ fmtPercent 1 (iv / cp) ++ " of intrinsic value)"] := by
      simp [value_reasons, hiv, hcp, hivne, hcpne, hratio]
    exact ⟨hv, by simp [reason_list, hv]⟩
  · simp only [value_check, hiv, hcp]
    rw [if_neg (by linarith)]

/-- C9 witness: the amended theorem applied at a positive histogram (clause
fires), at a zero histogram (scored but no clause), at intrinsic value `-20`
with current price `-10` (clause fires while the scorer skips), and at a
concrete score for the suffix. -/
theorem C9_reasoning_truthiness_guards_witness :
    macd_reasons { emptyMetrics with macd_histogram := some 1 } = ["Bullish MACD"] ∧
    "Bullish MACD" ∈ reason_list
      { sentiment_score := none, sentiment_confidence := none,
        sentiment_label := SentimentLabel.NEUTRAL }
      (some { emptyMetrics with macd_histogram := some 1 }) ∧
    macd_reasons { emptyMetrics with macd_histogram := some 0 } = [] ∧
    macd_check (some 0) = (-0.3, 1) ∧
    value_reasons { emptyMetrics with
      intrinsic_value := some (-20), current_price := some (-10) } =
      ["Undervalued (200.0% of intrinsic value)"] ∧
    "Undervalued (200.0% of intrinsic value)" ∈ reason_list
      { sentiment_score := none, sentiment_confidence := none,
        sentiment_label := SentimentLabel.NEUTRAL }
      (some { emptyMetrics with
                intrinsic_value := some (-20), current_price := some (-10) }) ∧
    value_check (some (-20)) (some (-10)) = (0, 0) ∧
    ∃ pre, generate_reasoning
      { sentiment_score := none, sentiment_confidence := none,
        sentiment_label := SentimentLabel.NEUTRAL } none 0 0 0 (1 / 4) =
      pre ++ " | Combined score: " ++ fmtFixed 2 (1 / 4) := by
  obtain ⟨ha, hb⟩ := (C9_reasoning_truthiness_guards
    { sentiment_score := none, sentiment_confidence := none,
      sentiment_label := SentimentLabel.NEUTRAL }
    { emptyMetrics with macd_histogram := some 1 } none 0 0 0 (1 / 4)).1
    1 rfl one_ne_zero
  obtain ⟨hc, hd⟩ := (C9_reasoning_truthiness_guards
    { sentiment_score := none, sentiment_confidence := none,
      sentiment_label := SentimentLabel.NEUTRAL }
    { emptyMetrics with macd_histogram := some 0 } none 0 0 0 (1 / 4)).2.1 rfl
  have hval := (C9_reasoning_truthiness_guards
    { sentiment_score := none, sentiment_confidence := none,
      sentiment_label := SentimentLabel.NEUTRAL }
    { emptyMetrics with intrinsic_value := some (-20), current_price := some (-10) }
    none 0 0 0 (1 / 4)).2.2.1 (-20) (-10) rfl rfl (by norm_num) (by norm_num)
  obtain ⟨hv1, hv2⟩ := hval.1 (by norm_num)
  have hv3 := hval.2 (by norm_num)
  have hstr : "Undervalued (" ++ fmtPercent 1 ((-20 : ℚ) / (-10)) ++
      " of intrinsic value)" = "Undervalued (200.0% of intrinsic value)" := by
    norm_num [fmtPercent, fmtFixed, round_half_even, pad_zeros]
    rfl
  refine ⟨by simpa using ha, by simpa using hb, hc, by simpa using hd,
    hv1.trans (by rw [hstr]), hstr ▸ hv2, hv3, ?_⟩
  exact (C9_reasoning_truthiness_guards
    { sentiment_score := none, sentiment_confidence := none,
      sentiment_label := SentimentLabel.NEUTRAL }
    { emptyMetrics with macd_histogram := some 0 } none 0 0 0 (1 / 4)).2.2.2
